import Mathlib

/-
Shallow embedding of the pvl-tech-stack simulation core:
- TelemetryAggregator              (demo/simulation/scooter-simulator/simulator/telemetry.py)
- BME680Simulator / SensorCollector (sensor-integration/simulator/bme680_simulator.py,
                                     sensor-integration/sensor_collector.py)
- MPU6050Simulator                  (sensor-integration/simulator/mpu6050_simulator.py)

Python floats are modelled as rationals. Wall-clock reads are modelled by an
explicit `now` argument; every random.random()/random.uniform call site gets an
explicit unit-interval draw passed in. math.sin, math.cos and math.pi are
abstracted as parameters (sinq, cosq, piq), since no verified property depends
on their values. Python round(x, 2) is modelled by round2 below; Python uses
round-half-even while Lean uses round-half-up, which differ only at exact
ties and do not affect any property proved here.
-/

namespace PVL

/-- Python round(x, 2): round to the nearest multiple of 1/100. -/
def round2 (x : ℚ) : ℚ := (round (x * 100) : ℤ) / 100

/-- Python random.uniform(a, b) given the unit draw r: a + (b - a) * r. -/
def uniformQ (a b r : ℚ) : ℚ := a + (b - a) * r

/-! ## TelemetryAggregator (telemetry.py) -/

namespace Telemetry

/-- battery_sim.get_state() fields used by the aggregator, plus the
battery_sim.capacity attribute read in the range computation. -/
structure BatteryState where
  level : ℚ
  voltage : ℚ
  current : ℚ
  temperature : ℚ
  charging : Bool
  capacity : ℚ

/-- motor_sim.get_state() fields used by the aggregator. -/
structure MotorState where
  power : ℚ
  speed : ℚ
  target_speed : ℚ
  temperature : ℚ
  rpm : ℚ
  torque : ℚ
  efficiency : ℚ

/-- temp_sim.get_state() fields used by the aggregator. -/
structure TempState where
  ambient : ℚ
  controller : ℚ

/-- Mutable state of a TelemetryAggregator instance. -/
structure AggState where
  start_time : ℚ
  total_energy : ℚ
  total_distance : ℚ
  last_update : ℚ

/-- The dictionary returned by get_aggregated_telemetry. -/
structure TelemetrySnapshot where
  timestamp : ℚ
  uptime : ℚ
  battery_level : ℚ
  battery_voltage : ℚ
  battery_current : ℚ
  battery_temperature : ℚ
  battery_charging : Bool
  speed : ℚ
  target_speed : ℚ
  motor_power : ℚ
  motor_temperature : ℚ
  motor_rpm : ℚ
  motor_torque : ℚ
  motor_efficiency : ℚ
  ambient_temperature : ℚ
  controller_temperature : ℚ
  total_energy_consumed : ℚ
  total_distance : ℚ
  energy_efficiency : ℚ
  estimated_range : ℚ
  system_health : ℚ

/-- TelemetryAggregator._calculate_health. -/
def calculateHealth (b : BatteryState) (m : MotorState) (t : TempState) : ℚ :=
  let health : ℚ := 100
  let health := if b.level < 20 then health - (20 - b.level) else health
  let health := if b.temperature > 40 then health - (b.temperature - 40) * 2 else health
  let health := if m.temperature > 60 then health - (m.temperature - 60) * 1.5 else health
  let health := if t.controller > 70 then health - (t.controller - 70) * 1.5 else health
  max 0 (min 100 health)

/-- TelemetryAggregator.get_aggregated_telemetry: one call at wall-clock `now`
with the three provider states; returns the new aggregator state and the
returned telemetry dictionary. -/
def getAggregatedTelemetry (s : AggState) (now : ℚ)
    (b : BatteryState) (m : MotorState) (t : TempState) :
    AggState × TelemetrySnapshot :=
  let elapsed := now - s.last_update
  let total_energy :=
    if elapsed > 0 then s.total_energy + m.power * (elapsed / 3600) else s.total_energy
  let total_distance :=
    if elapsed > 0 then s.total_distance + m.speed * (elapsed / 3600) else s.total_distance
  let wh_per_km : ℚ := if total_distance > 0 then total_energy / total_distance else 0
  let range_estimate : ℚ :=
    if wh_per_km > 0 then ((b.level / 100) * b.voltage * b.capacity) / wh_per_km else 0
  ({ start_time := s.start_time, total_energy := total_energy,
     total_distance := total_distance, last_update := now },
   { timestamp := now
     uptime := now - s.start_time
     battery_level := b.level
     battery_voltage := b.voltage
     battery_current := b.current
     battery_temperature := b.temperature
     battery_charging := b.charging
     speed := m.speed
     target_speed := m.target_speed
     motor_power := m.power
     motor_temperature := m.temperature
     motor_rpm := m.rpm
     motor_torque := m.torque
     motor_efficiency := m.efficiency
     ambient_temperature := t.ambient
     controller_temperature := t.controller
     total_energy_consumed := total_energy
     total_distance := total_distance
     energy_efficiency := wh_per_km
     estimated_range := range_estimate
     system_health := calculateHealth b m t })

end Telemetry

/-! ## BME680Simulator (bme680_simulator.py) and SensorCollector.read_sensor -/

namespace BME680

/-- The self.data object of a BME680Simulator. -/
structure SensorData where
  temperature : ℚ
  pressure : ℚ
  humidity : ℚ
  gas_resistance : ℚ
  heat_stable : Bool

/-- Mutable state of a BME680Simulator instance. gas_status is modelled as a
Bool (the code stores ENABLE_GAS_MEAS = 1 / DISABLE_GAS_MEAS = 0). -/
structure BMEState where
  gas_status : Bool
  gas_heater_temp : ℚ
  gas_heater_duration : ℚ
  last_update : ℚ
  temp_trend : ℚ
  pressure_trend : ℚ
  humidity_trend : ℚ
  time_of_day_hours : ℚ
  data : SensorData

/-- One unit-interval draw per random.random() call site in get_sensor_data,
in source order. -/
structure BMEDraws where
  rTempTrend : ℚ
  rTempNoise : ℚ
  rPressTrend : ℚ
  rPressNoise : ℚ
  rHumTrend : ℚ
  rHumNoise : ℚ
  rGasNoise : ℚ

/-- Python float modulus x % y for y > 0 (used for the 24h wrap). -/
def pyMod (x y : ℚ) : ℚ := x - y * ⌊x / y⌋

/-- BME680Simulator.get_sensor_data: one read at wall-clock `now`, with the
random draws `r`; returns the updated simulator state (the Python method
mutates self and returns True). sinq and piq abstract math.sin and math.pi. -/
def getSensorData (sinq : ℚ → ℚ) (piq : ℚ) (s : BMEState) (now : ℚ) (r : BMEDraws) :
    BMEState :=
  let elapsed := now - s.last_update
  let tod := pyMod (s.time_of_day_hours + elapsed / 3600) 24
  let daily_temp_cycle := 5 * sinq (((tod - 8) / 24) * 2 * piq)
  let temp_trend := max (-2) (min 2 (s.temp_trend + (r.rTempTrend - 0.5) * 0.1 * elapsed))
  let base_temp := 25 + temp_trend + daily_temp_cycle
  let noise := (r.rTempNoise - 0.5) * 0.3
  let temperature := round2 (base_temp + noise)
  let pressure_trend :=
    max (-10) (min 10 (s.pressure_trend - temp_trend * 0.5 + (r.rPressTrend - 0.5) * 0.5 * elapsed))
  let base_pressure := 1013.25 + pressure_trend
  let pressure_noise := (r.rPressNoise - 0.5) * 0.5
  let pressure := round2 (base_pressure + pressure_noise)
  let humidity_cycle := -10 * sinq (((tod - 8) / 24) * 2 * piq)
  let humidity_trend := max (-20) (min 20 (s.humidity_trend + (r.rHumTrend - 0.5) * 0.5 * elapsed))
  let base_humidity := 50 + humidity_trend + humidity_cycle
  let humidity_noise := (r.rHumNoise - 0.5) * 2
  let humidity := round2 (max 0 (min 100 (base_humidity + humidity_noise)))
  if s.gas_status then
    let humidity_factor := 1 - humidity / 150
    let rush_hour_factor : ℚ := if |tod - 8| < 2 ∨ |tod - 18| < 2 then 0.7 else 1
    let base_resistance := 50000 * humidity_factor * rush_hour_factor
    let resistance_noise := (r.rGasNoise - 0.3) * 10000
    let gas_resistance := max 5000 (base_resistance + resistance_noise)
    let heat_stable := decide (s.gas_heater_temp > 200 ∧ s.gas_heater_duration > 100)
    { s with
      last_update := now
      time_of_day_hours := tod
      temp_trend := temp_trend
      pressure_trend := pressure_trend
      humidity_trend := humidity_trend
      data := { temperature := temperature
                pressure := pressure
                humidity := humidity
                gas_resistance := gas_resistance
                heat_stable := heat_stable } }
  else
    { s with
      last_update := now
      time_of_day_hours := tod
      temp_trend := temp_trend
      pressure_trend := pressure_trend
      humidity_trend := humidity_trend
      data := { temperature := temperature
                pressure := pressure
                humidity := humidity
                gas_resistance := s.data.gas_resistance
                heat_stable := false } }

/-- The dictionary built by SensorCollector.read_sensor; gas_resistance is a
key added only when heat_stable, so it is an Option here. The isoformat
timestamp string is not modelled. -/
structure EnvironmentalSample where
  temperature : ℚ
  pressure : ℚ
  humidity : ℚ
  gas_resistance : Option ℚ

/-- SensorCollector.read_sensor (happy path): one get_sensor_data call
followed by building the returned dictionary. -/
def readSensor (sinq : ℚ → ℚ) (piq : ℚ) (s : BMEState) (now : ℚ) (r : BMEDraws) :
    BMEState × EnvironmentalSample :=
  let s2 := getSensorData sinq piq s now r
  (s2,
   { temperature := round2 s2.data.temperature
     pressure := round2 s2.data.pressure
     humidity := round2 s2.data.humidity
     gas_resistance := if s2.data.heat_stable then some s2.data.gas_resistance else none })

/-- A run of successive get_sensor_data calls, collecting the self.data value
after each call. Each input is the wall-clock time of the call and its draws. -/
def envRun (sinq : ℚ → ℚ) (piq : ℚ) (s : BMEState) : List (ℚ × BMEDraws) → List SensorData
  | [] => []
  | (now, r) :: rest =>
      let s2 := getSensorData sinq piq s now r
      s2.data :: envRun sinq piq s2 rest

end BME680

/-! ## MPU6050Simulator (mpu6050_simulator.py) -/

namespace MPU6050

/-- The _scenario tag; the code stores the strings "normal", "fall",
"pothole". -/
inductive Scenario where
  | normal : Scenario
  | fall : Scenario
  | pothole : Scenario
deriving DecidableEq

/-- Mutable state of an MPU6050Simulator instance. -/
structure MPUState where
  accel_x : ℚ
  accel_y : ℚ
  accel_z : ℚ
  gyro_x : ℚ
  gyro_y : ℚ
  gyro_z : ℚ
  temperature : ℚ
  last_update : ℚ
  scenario : Scenario
  scenario_start : ℚ
  scenario_duration : ℚ
  scenario_progress : ℚ

/-- Unit-interval draws for _schedule_next_event: the uniform(20, 60)
inter-arrival draw and the random() event-type draw. -/
structure ScheduleDraws where
  rInterval : ℚ
  rType : ℚ

/-- Unit-interval draws for _update_normal_riding, in source order. -/
structure NormalDraws where
  rAx : ℚ
  rAy : ℚ
  rAz : ℚ
  rGx : ℚ
  rGy : ℚ
  rGz : ℚ
  rTurnP : ℚ
  rTurnDir : ℚ
  rTurnMag : ℚ

/-- Unit-interval draws for _update_fall. Only one progress branch executes
per call; rA1..rA3 and rG1..rG3 are the accel/gyro draws of that branch,
rChoice models random.choice(side, front) (true = side), rAngle the final
resting-angle draw. -/
structure FallDraws where
  rA1 : ℚ
  rA2 : ℚ
  rA3 : ℚ
  rG1 : ℚ
  rG2 : ℚ
  rG3 : ℚ
  rChoice : Bool
  rAngle : ℚ

/-- Unit-interval draws for _update_pothole (one branch executes per call). -/
structure PotholeDraws where
  rAz : ℚ
  rAx : ℚ
  rAy : ℚ
  rGx : ℚ
  rGy : ℚ
  rGz : ℚ

/-- All draws one _update_simulation call can consume. -/
structure MPUDraws where
  rTemp : ℚ
  normal : NormalDraws
  fall : FallDraws
  pothole : PotholeDraws
  sched : ScheduleDraws

/-- MPU6050Simulator._schedule_next_event, with the wall-clock read inside it
passed as `now`. -/
def scheduleNextEvent (s : MPUState) (now : ℚ) (r : ScheduleDraws) : MPUState :=
  let next_event_time := uniformQ 20 60 r.rInterval
  let start := now + next_event_time
  if r.rType < 0.3 then
    { s with scenario := Scenario.fall, scenario_start := start, scenario_duration := 2 }
  else
    { s with scenario := Scenario.pothole, scenario_start := start, scenario_duration := 0.5 }

/-- MPU6050Simulator._update_normal_riding. -/
def updateNormalRiding (s : MPUState) (r : NormalDraws) : MPUState :=
  let gyro_z := uniformQ (-0.1) 0.1 r.rGz
  let gyro_z :=
    if r.rTurnP < 0.05 then
      (if r.rTurnDir < 0.5 then 1 else -1) * uniformQ 0.5 1.5 r.rTurnMag
    else gyro_z
  { s with
    accel_x := uniformQ (-0.5) 0.5 r.rAx
    accel_y := uniformQ (-0.5) 0.5 r.rAy
    accel_z := 9.8 + uniformQ (-0.3) 0.3 r.rAz
    gyro_x := uniformQ (-0.2) 0.2 r.rGx
    gyro_y := uniformQ (-0.2) 0.2 r.rGy
    gyro_z := gyro_z }

/-- MPU6050Simulator._update_fall. sinq, cosq, piq abstract math.sin,
math.cos, math.pi. -/
def updateFall (sinq cosq : ℚ → ℚ) (piq : ℚ) (s : MPUState) (progress : ℚ)
    (r : FallDraws) : MPUState :=
  if progress < 0.1 then
    let lean_angle := progress * 10 * piq / 180
    { s with
      accel_x := 9.8 * sinq lean_angle
      accel_z := 9.8 * cosq lean_angle
      gyro_x := uniformQ 0.5 1.0 r.rG1 }
  else if progress < 0.3 then
    { s with
      accel_x := uniformQ (-1.0) 1.0 r.rA1
      accel_y := uniformQ (-1.0) 1.0 r.rA2
      accel_z := uniformQ (-1.0) 1.0 r.rA3
      gyro_x := uniformQ 2.0 5.0 r.rG1
      gyro_y := uniformQ (-2.0) 2.0 r.rG2 }
  else if progress < 0.4 then
    let s :=
      if r.rChoice then
        { s with
          accel_x := uniformQ 25.0 35.0 r.rA1
          accel_y := uniformQ (-5.0) 5.0 r.rA2
          accel_z := uniformQ 5.0 10.0 r.rA3 }
      else
        { s with
          accel_x := uniformQ (-5.0) 5.0 r.rA1
          accel_y := uniformQ 25.0 35.0 r.rA2
          accel_z := uniformQ 5.0 10.0 r.rA3 }
    { s with
      gyro_x := uniformQ (-10.0) 10.0 r.rG1
      gyro_y := uniformQ (-10.0) 10.0 r.rG2
      gyro_z := uniformQ (-10.0) 10.0 r.rG3 }
  else
    let fall_angle := uniformQ 60 90 r.rAngle * piq / 180
    { s with
      accel_x := 9.8 * sinq fall_angle
      accel_y := uniformQ (-1.0) 1.0 r.rA2
      accel_z := 9.8 * cosq fall_angle
      gyro_x := uniformQ (-0.1) 0.1 r.rG1
      gyro_y := uniformQ (-0.1) 0.1 r.rG2
      gyro_z := uniformQ (-0.1) 0.1 r.rG3 }

/-- MPU6050Simulator._update_pothole. -/
def updatePothole (s : MPUState) (progress : ℚ) (r : PotholeDraws) : MPUState :=
  if progress < 0.3 then
    { s with
      accel_z := -9.8 - uniformQ 5.0 15.0 r.rAz
      accel_x := uniformQ (-2.0) 2.0 r.rAx
      accel_y := uniformQ (-2.0) 2.0 r.rAy
      gyro_x := uniformQ 2.0 4.0 r.rGx
      gyro_y := uniformQ (-0.5) 0.5 r.rGy
      gyro_z := uniformQ (-0.5) 0.5 r.rGz }
  else if progress < 0.7 then
    { s with
      accel_z := 9.8 + uniformQ 5.0 15.0 r.rAz
      accel_x := uniformQ (-3.0) 3.0 r.rAx
      accel_y := uniformQ (-3.0) 3.0 r.rAy
      gyro_x := uniformQ (-3.0) (-1.0) r.rGx
      gyro_y := uniformQ (-0.5) 0.5 r.rGy
      gyro_z := uniformQ (-0.5) 0.5 r.rGz }
  else
    { s with
      accel_z := 9.8 + uniformQ (-2.0) 2.0 r.rAz * (1 - progress) * 2
      accel_x := uniformQ (-1.0) 1.0 r.rAx * (1 - progress) * 2
      accel_y := uniformQ (-1.0) 1.0 r.rAy * (1 - progress) * 2
      gyro_x := uniformQ (-1.0) 1.0 r.rGx * (1 - progress) * 2
      gyro_y := uniformQ (-0.5) 0.5 r.rGy * (1 - progress) * 2
      gyro_z := uniformQ (-0.5) 0.5 r.rGz * (1 - progress) * 2 }

/-- The progress value min(1.0, (now - scenario_start) / scenario_duration)
computed inside _update_simulation. -/
def eventProgress (s : MPUState) (now : ℚ) : ℚ :=
  min 1.0 ((now - s.scenario_start) / s.scenario_duration)

/-- MPU6050Simulator._update_simulation: one update at wall-clock `now`. The
second wall-clock read inside _schedule_next_event is identified with `now`. -/
def updateSimulation (sinq cosq : ℚ → ℚ) (piq : ℚ) (s : MPUState) (now : ℚ)
    (d : MPUDraws) : MPUState :=
  let elapsed := now - s.last_update
  let temp := s.temperature + uniformQ (-0.05) 0.05 d.rTemp * elapsed
  let temp := min 45.0 (max 15.0 temp)
  let s := { s with last_update := now, temperature := temp }
  if s.scenario ≠ Scenario.normal ∧ now ≥ s.scenario_start then
    let progress := eventProgress s now
    let s := { s with scenario_progress := progress }
    let s :=
      match s.scenario with
      | Scenario.fall => updateFall sinq cosq piq s progress d.fall
      | Scenario.pothole => updatePothole s progress d.pothole
      | Scenario.normal => s
    if progress ≥ 1.0 then
      scheduleNextEvent { s with scenario := Scenario.normal } now d.sched
    else s
  else
    updateNormalRiding s d.normal

/-- The acceleration property: updates the simulation, then returns the
acceleration triple. -/
def acceleration (sinq cosq : ℚ → ℚ) (piq : ℚ) (s : MPUState) (now : ℚ)
    (d : MPUDraws) : MPUState × (ℚ × ℚ × ℚ) :=
  let s2 := updateSimulation sinq cosq piq s now d
  (s2, (s2.accel_x, s2.accel_y, s2.accel_z))

/-- The gyro property: returns the stored rotation rates without updating. -/
def gyro (s : MPUState) : MPUState × (ℚ × ℚ × ℚ) :=
  (s, (s.gyro_x, s.gyro_y, s.gyro_z))

/-- The temperature property: returns the stored temperature without
updating. -/
def temperatureRead (s : MPUState) : MPUState × ℚ :=
  (s, s.temperature)

/-- A run of full read cycles (acceleration, then gyro, then temperature, as
in the driving loop), collecting each cycle's outputs. -/
def mpuRun (sinq cosq : ℚ → ℚ) (piq : ℚ) (s : MPUState) :
    List (ℚ × MPUDraws) → List ((ℚ × ℚ × ℚ) × (ℚ × ℚ × ℚ) × ℚ)
  | [] => []
  | (now, d) :: rest =>
      let a := acceleration sinq cosq piq s now d
      ((a.2, (gyro a.1).2, (temperatureRead a.1).2)) :: mpuRun sinq cosq piq a.1 rest

end MPU6050

/-- A run of successive get_aggregated_telemetry calls; each input is the
wall-clock time of the call and the three provider states it observes. -/
def Telemetry.aggRun (s : Telemetry.AggState) :
    List (ℚ × Telemetry.BatteryState × Telemetry.MotorState × Telemetry.TempState) →
      List Telemetry.TelemetrySnapshot
  | [] => []
  | (now, b, m, t) :: rest =>
      let r := Telemetry.getAggregatedTelemetry s now b m t
      r.2 :: Telemetry.aggRun r.1 rest

open Telemetry in
/-- Claim C1: every aggregate call computes system_health by starting at 100,
subtracting (20 - battery.level) if battery.level < 20, 2*(battery.temperature
- 40) if battery.temperature > 40, 1.5*(motor.temperature - 60) if
motor.temperature > 60, 1.5*(controller.temperature - 70) if
controller.temperature > 70, then clamping to the interval from 0 to 100; at
battery.level = 25, battery.temperature = 45, motor.temperature = 65,
controller.temperature = 75 the result is exactly 75. -/
theorem C1_system_health :
    (∀ (s : AggState) (now : ℚ) (b : BatteryState) (m : MotorState) (t : TempState),
      (getAggregatedTelemetry s now b m t).2.system_health =
        max 0 (min 100
          (100 - (if b.level < 20 then 20 - b.level else 0)
              - (if b.temperature > 40 then (b.temperature - 40) * 2 else 0)
              - (if m.temperature > 60 then (m.temperature - 60) * 1.5 else 0)
              - (if t.controller > 70 then (t.controller - 70) * 1.5 else 0))))
    ∧ (getAggregatedTelemetry ⟨0, 0, 0, 0⟩ 1
        ⟨25, 36, 5, 45, false, 500⟩ ⟨0, 0, 0, 65, 0, 0, 0⟩ ⟨20, 75⟩).2.system_health = 75 := by
  constructor
  · intro s now b m t
    show calculateHealth b m t = _
    unfold calculateHealth
    split_ifs <;> ring_nf
  · norm_num [getAggregatedTelemetry, calculateHealth]

open Telemetry in
/-- Claim C2: on every aggregate call with elapsed = now - last_update, if
elapsed > 0 then total_energy grows by exactly motor.power * (elapsed/3600)
and total_distance by exactly motor.speed * (elapsed/3600); for non-negative
power and speed both accumulators are non-decreasing on every call; with
elapsed = 3600, power = 100 and speed = 0, total_energy grows by exactly 100
and total_distance is unchanged. -/
theorem C2_accumulators (s : AggState) (now : ℚ)
    (b : BatteryState) (m : MotorState) (t : TempState) :
    (now - s.last_update > 0 →
      (getAggregatedTelemetry s now b m t).1.total_energy
          = s.total_energy + m.power * ((now - s.last_update) / 3600)
        ∧ (getAggregatedTelemetry s now b m t).1.total_distance
          = s.total_distance + m.speed * ((now - s.last_update) / 3600))
    ∧ (0 ≤ m.power → 0 ≤ m.speed →
        s.total_energy ≤ (getAggregatedTelemetry s now b m t).1.total_energy
        ∧ s.total_distance ≤ (getAggregatedTelemetry s now b m t).1.total_distance)
    ∧ (now - s.last_update = 3600 → m.power = 100 → m.speed = 0 →
        (getAggregatedTelemetry s now b m t).1.total_energy = s.total_energy + 100
        ∧ (getAggregatedTelemetry s now b m t).1.total_distance = s.total_distance) := by
  refine ⟨?_, ?_, ?_⟩
  · intro h
    simp [getAggregatedTelemetry, h]
  · intro hp hs
    by_cases h : now - s.last_update > 0
    · have he : (0:ℚ) ≤ (now - s.last_update) / 3600 :=
        div_nonneg (le_of_lt h) (by norm_num)
      have h1 : (0:ℚ) ≤ m.power * ((now - s.last_update) / 3600) := mul_nonneg hp he
      have h2 : (0:ℚ) ≤ m.speed * ((now - s.last_update) / 3600) := mul_nonneg hs he
      constructor <;> simp [getAggregatedTelemetry, h] <;> linarith
    · constructor <;> simp [getAggregatedTelemetry, h]
  · intro h1 h2 h3
    have h : now - s.last_update > 0 := by rw [h1]; norm_num
    constructor
    · simp [getAggregatedTelemetry, h, h1, h2]
      try norm_num
    · simp [getAggregatedTelemetry, h, h1, h3]

open Telemetry in
/-- Witness for C2 at a concrete call: last_update = 0, now = 3600, power =
100, speed = 0; total_energy grows from 0 to 100, total_distance stays 0. -/
theorem C2_accumulators_witness :
    (getAggregatedTelemetry ⟨0, 0, 0, 0⟩ 3600
        ⟨50, 36, 5, 25, false, 500⟩ ⟨100, 0, 0, 50, 0, 0, 0⟩ ⟨20, 30⟩).1.total_energy = 0 + 100
    ∧ (getAggregatedTelemetry ⟨0, 0, 0, 0⟩ 3600
        ⟨50, 36, 5, 25, false, 500⟩ ⟨100, 0, 0, 50, 0, 0, 0⟩ ⟨20, 30⟩).1.total_distance = 0 :=
  (C2_accumulators ⟨0, 0, 0, 0⟩ 3600
    ⟨50, 36, 5, 25, false, 500⟩ ⟨100, 0, 0, 50, 0, 0, 0⟩ ⟨20, 30⟩).2.2 (by norm_num) rfl rfl

open Telemetry in
/-- Claim C4: on every aggregate call, the returned energy_efficiency equals
total_energy / total_distance when total_distance > 0 and 0 otherwise, and the
returned estimated_range equals ((battery.level/100) * battery.voltage *
battery.capacity) / energy_efficiency when energy_efficiency > 0 and 0
otherwise. -/
theorem C4_efficiency_range (s : AggState) (now : ℚ)
    (b : BatteryState) (m : MotorState) (t : TempState) :
    ((getAggregatedTelemetry s now b m t).2.energy_efficiency
      = if (getAggregatedTelemetry s now b m t).2.total_distance > 0
        then (getAggregatedTelemetry s now b m t).2.total_energy_consumed
              / (getAggregatedTelemetry s now b m t).2.total_distance
        else 0)
    ∧ ((getAggregatedTelemetry s now b m t).2.estimated_range
      = if (getAggregatedTelemetry s now b m t).2.energy_efficiency > 0
        then ((b.level / 100) * b.voltage * b.capacity)
              / (getAggregatedTelemetry s now b m t).2.energy_efficiency
        else 0) :=
  ⟨rfl, rfl⟩

/-- round2 keeps a value of the interval from 0 to 100 inside it. -/
theorem round2_mem {x : ℚ} (h0 : 0 ≤ x) (h1 : x ≤ 100) :
    0 ≤ round2 x ∧ round2 x ≤ 100 := by
  have habs := abs_sub_round (x * 100)
  rw [abs_le] at habs
  have hlo : (0 : ℤ) ≤ round (x * 100) := by
    have : (-1 : ℚ) < ((round (x * 100) : ℤ) : ℚ) := by linarith [habs.2]
    have h2 : (-1 : ℤ) < round (x * 100) := by exact_mod_cast this
    omega
  have hhi : round (x * 100) ≤ (10000 : ℤ) := by
    have : ((round (x * 100) : ℤ) : ℚ) < 10001 := by linarith [habs.1]
    have h2 : round (x * 100) < (10001 : ℤ) := by exact_mod_cast this
    omega
  constructor
  · exact div_nonneg (by exact_mod_cast hlo) (by norm_num)
  · rw [round2, div_le_iff₀ (by norm_num : (0:ℚ) < 100)]
    calc ((round (x * 100) : ℤ) : ℚ) ≤ 10000 := by exact_mod_cast hhi
      _ = 100 * 100 := by norm_num

/-- Every get_sensor_data call stores a humidity between 0 and 100. -/
theorem getSensorData_humidity_mem (sinq : ℚ → ℚ) (piq : ℚ) (s : BME680.BMEState)
    (now : ℚ) (r : BME680.BMEDraws) :
    0 ≤ (BME680.getSensorData sinq piq s now r).data.humidity
    ∧ (BME680.getSensorData sinq piq s now r).data.humidity ≤ 100 := by
  have key : ∀ z : ℚ, 0 ≤ round2 (max 0 (min 100 z)) ∧ round2 (max 0 (min 100 z)) ≤ 100 :=
    fun z => round2_mem (le_max_left 0 _) (max_le (by norm_num) (min_le_left 100 z))
  cases hg : s.gas_status <;> simp [BME680.getSensorData, hg] <;> exact key _

open BME680 Telemetry in
/-- Claim C3: over every sequence of get_sensor_data calls, each stored
humidity lies between 0 and 100, and every aggregate call produces a
system_health between 0 and 100. -/
theorem C3_humidity_health_bounds :
    (∀ (sinq : ℚ → ℚ) (piq : ℚ) (s : BMEState) (inputs : List (ℚ × BMEDraws)),
      ∀ d ∈ envRun sinq piq s inputs, 0 ≤ d.humidity ∧ d.humidity ≤ 100)
    ∧ (∀ (b : BatteryState) (m : MotorState) (t : TempState),
        0 ≤ calculateHealth b m t ∧ calculateHealth b m t ≤ 100) := by
  constructor
  · intro sinq piq s inputs
    induction inputs generalizing s with
    | nil => intro d hd; simp [envRun] at hd
    | cons p rest ih =>
        obtain ⟨now, r⟩ := p
        intro d hd
        simp only [envRun, List.mem_cons] at hd
        rcases hd with h | h
        · subst h; exact getSensorData_humidity_mem sinq piq s now r
        · exact ih _ d h
  · intro b m t
    unfold calculateHealth
    exact ⟨le_max_left 0 _, max_le (by norm_num) (min_le_left 100 _)⟩

open BME680 in
/-- Witness for C3 on a concrete one-call run with all draws equal to 1/2. -/
theorem C3_humidity_health_bounds_witness :
    0 ≤ (getSensorData (fun _ => 0) 0
          ⟨false, 0, 0, 0, 0, 0, 0, 0, ⟨25, 1013.25, 50, 50000, false⟩⟩ 1
          ⟨1/2, 1/2, 1/2, 1/2, 1/2, 1/2, 1/2⟩).data.humidity
    ∧ (getSensorData (fun _ => 0) 0
          ⟨false, 0, 0, 0, 0, 0, 0, 0, ⟨25, 1013.25, 50, 50000, false⟩⟩ 1
          ⟨1/2, 1/2, 1/2, 1/2, 1/2, 1/2, 1/2⟩).data.humidity ≤ 100 :=
  C3_humidity_health_bounds.1 (fun _ => 0) 0
    ⟨false, 0, 0, 0, 0, 0, 0, 0, ⟨25, 1013.25, 50, 50000, false⟩⟩
    [(1, ⟨1/2, 1/2, 1/2, 1/2, 1/2, 1/2, 1/2⟩)] _ (by simp [envRun])

namespace MPU6050

/-- _update_fall only writes accelerometer and gyroscope fields. -/
theorem updateFall_frame (sinq cosq : ℚ → ℚ) (piq : ℚ) (s : MPUState)
    (progress : ℚ) (r : FallDraws) :
    (updateFall sinq cosq piq s progress r).scenario = s.scenario
    ∧ (updateFall sinq cosq piq s progress r).scenario_start = s.scenario_start
    ∧ (updateFall sinq cosq piq s progress r).scenario_duration = s.scenario_duration
    ∧ (updateFall sinq cosq piq s progress r).scenario_progress = s.scenario_progress
    ∧ (updateFall sinq cosq piq s progress r).last_update = s.last_update
    ∧ (updateFall sinq cosq piq s progress r).temperature = s.temperature := by
  unfold updateFall
  split_ifs <;> cases r.rChoice <;> simp

/-- _update_pothole only writes accelerometer and gyroscope fields. -/
theorem updatePothole_frame (s : MPUState) (progress : ℚ) (r : PotholeDraws) :
    (updatePothole s progress r).scenario = s.scenario
    ∧ (updatePothole s progress r).scenario_start = s.scenario_start
    ∧ (updatePothole s progress r).scenario_duration = s.scenario_duration
    ∧ (updatePothole s progress r).scenario_progress = s.scenario_progress
    ∧ (updatePothole s progress r).last_update = s.last_update
    ∧ (updatePothole s progress r).temperature = s.temperature := by
  unfold updatePothole
  split_ifs <;> simp

/-- _update_normal_riding only writes accelerometer and gyroscope fields. -/
theorem updateNormalRiding_frame (s : MPUState) (r : NormalDraws) :
    (updateNormalRiding s r).scenario = s.scenario
    ∧ (updateNormalRiding s r).scenario_start = s.scenario_start
    ∧ (updateNormalRiding s r).scenario_duration = s.scenario_duration
    ∧ (updateNormalRiding s r).scenario_progress = s.scenario_progress
    ∧ (updateNormalRiding s r).last_update = s.last_update
    ∧ (updateNormalRiding s r).temperature = s.temperature := by
  unfold updateNormalRiding
  simp

/-- _schedule_next_event only writes scenario, scenario_start and
scenario_duration. -/
theorem scheduleNextEvent_frame (s : MPUState) (now : ℚ) (r : ScheduleDraws) :
    (scheduleNextEvent s now r).scenario_progress = s.scenario_progress
    ∧ (scheduleNextEvent s now r).last_update = s.last_update
    ∧ (scheduleNextEvent s now r).temperature = s.temperature := by
  unfold scheduleNextEvent
  split_ifs <;> simp

/-- An in-event _update_simulation call stores exactly
min(1, (now - start)/duration) in _scenario_progress. -/
theorem updateSimulation_progress (sinq cosq : ℚ → ℚ) (piq : ℚ) (s : MPUState)
    (now : ℚ) (d : MPUDraws)
    (h1 : s.scenario ≠ Scenario.normal) (h2 : s.scenario_start ≤ now) :
    (updateSimulation sinq cosq piq s now d).scenario_progress
      = eventProgress s now := by
  cases hsc : s.scenario with
  | normal => exact absurd hsc h1
  | fall =>
      simp only [updateSimulation, hsc, eventProgress]
      rw [if_pos ⟨by simp [hsc], h2⟩]
      split_ifs with hdone
      · simp [scheduleNextEvent_frame, updateFall_frame]
      · simp [updateFall_frame]
  | pothole =>
      simp only [updateSimulation, hsc, eventProgress]
      rw [if_pos ⟨by simp [hsc], h2⟩]
      split_ifs with hdone
      · simp [scheduleNextEvent_frame, updatePothole_frame]
      · simp [updatePothole_frame]

/-- An in-event _update_simulation call that does not complete the event
leaves the scenario tag, start time and duration unchanged. -/
theorem updateSimulation_frame_incomplete (sinq cosq : ℚ → ℚ) (piq : ℚ)
    (s : MPUState) (now : ℚ) (d : MPUDraws)
    (h1 : s.scenario ≠ Scenario.normal) (h2 : s.scenario_start ≤ now)
    (h3 : eventProgress s now < 1.0) :
    (updateSimulation sinq cosq piq s now d).scenario = s.scenario
    ∧ (updateSimulation sinq cosq piq s now d).scenario_start = s.scenario_start
    ∧ (updateSimulation sinq cosq piq s now d).scenario_duration = s.scenario_duration := by
  have hnot : ¬ eventProgress s now ≥ 1.0 := not_le.mpr h3
  cases hsc : s.scenario with
  | normal => exact absurd hsc h1
  | fall =>
      simp only [updateSimulation, hsc]
      rw [if_pos ⟨by simp [hsc], h2⟩]
      rw [if_neg (by simpa [eventProgress] using hnot)]
      simp [updateFall_frame, hsc]
  | pothole =>
      simp only [updateSimulation, hsc]
      rw [if_pos ⟨by simp [hsc], h2⟩]
      rw [if_neg (by simpa [eventProgress] using hnot)]
      simp [updatePothole_frame, hsc]

/-- An _update_simulation call before the scheduled event start (or in the
normal scenario) leaves _scenario_progress unchanged. -/
theorem updateSimulation_progress_pre_event (sinq cosq : ℚ → ℚ) (piq : ℚ)
    (s : MPUState) (now : ℚ) (d : MPUDraws) (h : now < s.scenario_start) :
    (updateSimulation sinq cosq piq s now d).scenario_progress
      = s.scenario_progress := by
  simp only [updateSimulation]
  rw [if_neg (by intro hc; exact absurd hc.2 (not_le.mpr h))]
  simp [updateNormalRiding_frame]

/-- eventProgress is monotone in the read time while start and duration are
fixed. -/
theorem eventProgress_mono {s : MPUState} {n1 n2 : ℚ}
    (hd : 0 < s.scenario_duration) (h : n1 ≤ n2) :
    eventProgress s n1 ≤ eventProgress s n2 := by
  unfold eventProgress
  exact min_le_min le_rfl (by gcongr)

/-- Every _update_simulation call sets _last_update to the current time. -/
theorem updateSimulation_last_update (sinq cosq : ℚ → ℚ) (piq : ℚ)
    (s : MPUState) (now : ℚ) (d : MPUDraws) :
    (updateSimulation sinq cosq piq s now d).last_update = now := by
  cases hsc : s.scenario with
  | normal =>
      simp only [updateSimulation]
      rw [if_neg (by simp [hsc])]
      simp [updateNormalRiding_frame]
  | fall =>
      simp only [updateSimulation, hsc]
      by_cases h2 : s.scenario_start ≤ now
      · rw [if_pos ⟨by simp, h2⟩]
        split_ifs <;> simp [scheduleNextEvent_frame, updateFall_frame]
      · rw [if_neg (by intro hc; exact h2 hc.2)]
        simp [updateNormalRiding_frame]
  | pothole =>
      simp only [updateSimulation, hsc]
      by_cases h2 : s.scenario_start ≤ now
      · rw [if_pos ⟨by simp, h2⟩]
        split_ifs <;> simp [scheduleNextEvent_frame, updatePothole_frame]
      · rw [if_neg (by intro hc; exact h2 hc.2)]
        simp [updateNormalRiding_frame]

end MPU6050

open MPU6050 in
/-- Counterexample to claim C5: the stored _scenario_progress is not reset to
0 at the transition into an event. Concretely, a simulator whose stored
progress is 1 (left over from the previous event) with a Fall scheduled at
start_time 0 and duration 2, read for the first time inside the event at time
1, stores progress 1/2, never 0. -/
theorem C5_counterexample :
    (updateSimulation (fun _ => 0) (fun _ => 0) 0
        ⟨0, 0, 9.8, 0, 0, 0, 25, 0, Scenario.fall, 0, 2, 1⟩ 1
        ⟨1/2, ⟨1/2, 1/2, 1/2, 1/2, 1/2, 1/2, 1/2, 1/2, 1/2⟩,
         ⟨1/2, 1/2, 1/2, 1/2, 1/2, 1/2, true, 1/2⟩,
         ⟨1/2, 1/2, 1/2, 1/2, 1/2, 1/2⟩, ⟨1/2, 1/2⟩⟩).scenario_progress = 1/2
    ∧ ((1:ℚ)/2 ≠ 0) := by
  constructor
  · rw [updateSimulation_progress _ _ _ _ _ _ (by simp) (by norm_num)]
    norm_num [eventProgress, min_def]
  · norm_num

open MPU6050 in
/-- Claim C5 as amended: within a single scenario event, the stored progress
min(1, (now - start_time)/duration) is monotonically non-decreasing across
successive reads; the stored progress is not reset to 0 at the transition out
of the normal phase: reads before the scheduled start leave it unchanged,
scheduling a new event leaves it unchanged, and it is first overwritten by
the first read at or after start_time with min(1, (now - start)/duration). -/
theorem C5_progress_amended (sinq cosq : ℚ → ℚ) (piq : ℚ) (s : MPUState)
    (now1 now2 nowPre nowS : ℚ) (d1 d2 d3 : MPUDraws) (rs : ScheduleDraws) :
    (s.scenario ≠ Scenario.normal → 0 < s.scenario_duration →
      s.scenario_start ≤ now1 → now1 ≤ now2 → eventProgress s now1 < 1.0 →
      (updateSimulation sinq cosq piq s now1 d1).scenario_progress
        ≤ (updateSimulation sinq cosq piq
            (updateSimulation sinq cosq piq s now1 d1) now2 d2).scenario_progress)
    ∧ (s.scenario ≠ Scenario.normal → s.scenario_start ≤ now2 →
        (updateSimulation sinq cosq piq s now2 d2).scenario_progress
          = eventProgress s now2)
    ∧ (nowPre < s.scenario_start →
        (updateSimulation sinq cosq piq s nowPre d3).scenario_progress
          = s.scenario_progress)
    ∧ (scheduleNextEvent s nowS rs).scenario_progress = s.scenario_progress := by
  refine ⟨?_, ?_, ?_, (scheduleNextEvent_frame s nowS rs).1⟩
  · intro h1 hd h2 h3 h5
    have e1 := updateSimulation_progress sinq cosq piq s now1 d1 h1 h2
    have f := updateSimulation_frame_incomplete sinq cosq piq s now1 d1 h1 h2 h5
    have h1b : (updateSimulation sinq cosq piq s now1 d1).scenario ≠ Scenario.normal := by
      rw [f.1]; exact h1
    have h2b : (updateSimulation sinq cosq piq s now1 d1).scenario_start ≤ now2 := by
      rw [f.2.1]; exact le_trans h2 h3
    have e2 := updateSimulation_progress sinq cosq piq
      (updateSimulation sinq cosq piq s now1 d1) now2 d2 h1b h2b
    rw [e1, e2]
    have hcong : eventProgress (updateSimulation sinq cosq piq s now1 d1) now2
        = eventProgress s now2 := by
      unfold eventProgress; rw [f.2.1, f.2.2]
    rw [hcong]
    exact eventProgress_mono hd h3
  · intro h1 h2
    exact updateSimulation_progress sinq cosq piq s now2 d2 h1 h2
  · intro h
    exact updateSimulation_progress_pre_event sinq cosq piq s nowPre d3 h

open MPU6050 in
/-- Witness for the amended C5 on a concrete Fall event with start_time 10 and
duration 2: reads at 10.5 then 11 give non-decreasing stored progress, a read
at 5 leaves the stored progress at its old value 7, and scheduling preserves
it as well. -/
theorem C5_progress_amended_witness :
    ((updateSimulation (fun _ => 0) (fun _ => 0) 0
        ⟨0, 0, 9.8, 0, 0, 0, 25, 0, Scenario.fall, 10, 2, 7⟩ 10.5
        ⟨1/2, ⟨1/2, 1/2, 1/2, 1/2, 1/2, 1/2, 1/2, 1/2, 1/2⟩,
         ⟨1/2, 1/2, 1/2, 1/2, 1/2, 1/2, true, 1/2⟩,
         ⟨1/2, 1/2, 1/2, 1/2, 1/2, 1/2⟩, ⟨1/2, 1/2⟩⟩).scenario_progress
      ≤ (updateSimulation (fun _ => 0) (fun _ => 0) 0
          (updateSimulation (fun _ => 0) (fun _ => 0) 0
            ⟨0, 0, 9.8, 0, 0, 0, 25, 0, Scenario.fall, 10, 2, 7⟩ 10.5
            ⟨1/2, ⟨1/2, 1/2, 1/2, 1/2, 1/2, 1/2, 1/2, 1/2, 1/2⟩,
             ⟨1/2, 1/2, 1/2, 1/2, 1/2, 1/2, true, 1/2⟩,
             ⟨1/2, 1/2, 1/2, 1/2, 1/2, 1/2⟩, ⟨1/2, 1/2⟩⟩) 11
          ⟨1/2, ⟨1/2, 1/2, 1/2, 1/2, 1/2, 1/2, 1/2, 1/2, 1/2⟩,
           ⟨1/2, 1/2, 1/2, 1/2, 1/2, 1/2, true, 1/2⟩,
           ⟨1/2, 1/2, 1/2, 1/2, 1/2, 1/2⟩, ⟨1/2, 1/2⟩⟩).scenario_progress)
    ∧ (updateSimulation (fun _ => 0) (fun _ => 0) 0
        ⟨0, 0, 9.8, 0, 0, 0, 25, 0, Scenario.fall, 10, 2, 7⟩ 5
        ⟨1/2, ⟨1/2, 1/2, 1/2, 1/2, 1/2, 1/2, 1/2, 1/2, 1/2⟩,
         ⟨1/2, 1/2, 1/2, 1/2, 1/2, 1/2, true, 1/2⟩,
         ⟨1/2, 1/2, 1/2, 1/2, 1/2, 1/2⟩, ⟨1/2, 1/2⟩⟩).scenario_progress = 7
    ∧ (scheduleNextEvent ⟨0, 0, 9.8, 0, 0, 0, 25, 0, Scenario.fall, 10, 2, 7⟩ 3
        ⟨1/2, 1/2⟩).scenario_progress = 7 := by
  have h := C5_progress_amended (fun _ => 0) (fun _ => 0) 0
    ⟨0, 0, 9.8, 0, 0, 0, 25, 0, Scenario.fall, 10, 2, 7⟩ 10.5 11 5 3
    ⟨1/2, ⟨1/2, 1/2, 1/2, 1/2, 1/2, 1/2, 1/2, 1/2, 1/2⟩,
     ⟨1/2, 1/2, 1/2, 1/2, 1/2, 1/2, true, 1/2⟩,
     ⟨1/2, 1/2, 1/2, 1/2, 1/2, 1/2⟩, ⟨1/2, 1/2⟩⟩
    ⟨1/2, ⟨1/2, 1/2, 1/2, 1/2, 1/2, 1/2, 1/2, 1/2, 1/2⟩,
     ⟨1/2, 1/2, 1/2, 1/2, 1/2, 1/2, true, 1/2⟩,
     ⟨1/2, 1/2, 1/2, 1/2, 1/2, 1/2⟩, ⟨1/2, 1/2⟩⟩
    ⟨1/2, ⟨1/2, 1/2, 1/2, 1/2, 1/2, 1/2, 1/2, 1/2, 1/2⟩,
     ⟨1/2, 1/2, 1/2, 1/2, 1/2, 1/2, true, 1/2⟩,
     ⟨1/2, 1/2, 1/2, 1/2, 1/2, 1/2⟩, ⟨1/2, 1/2⟩⟩
    ⟨1/2, 1/2⟩
  exact ⟨h.1 (by simp) (by norm_num) (by norm_num) (by norm_num)
          (by norm_num [eventProgress, min_def]),
        h.2.2.1 (by norm_num), h.2.2.2⟩

open MPU6050 in
/-- Claim C9: only the acceleration accessor advances the simulation (it runs
_update_simulation, which sets _last_update to the read time); the gyro and
temperature accessors change no state and return exactly the fields computed
by the most recent acceleration read. -/
theorem C9_accessor_effects (sinq cosq : ℚ → ℚ) (piq : ℚ) (s : MPUState)
    (now : ℚ) (d : MPUDraws) :
    gyro s = (s, (s.gyro_x, s.gyro_y, s.gyro_z))
    ∧ temperatureRead s = (s, s.temperature)
    ∧ (acceleration sinq cosq piq s now d).1 = updateSimulation sinq cosq piq s now d
    ∧ (acceleration sinq cosq piq s now d).1.last_update = now
    ∧ (gyro (acceleration sinq cosq piq s now d).1).2
        = ((updateSimulation sinq cosq piq s now d).gyro_x,
           (updateSimulation sinq cosq piq s now d).gyro_y,
           (updateSimulation sinq cosq piq s now d).gyro_z)
    ∧ (temperatureRead (acceleration sinq cosq piq s now d).1).2
        = (updateSimulation sinq cosq piq s now d).temperature :=
  ⟨rfl, rfl, rfl, updateSimulation_last_update sinq cosq piq s now d, rfl, rfl⟩

open MPU6050 in
/-- Claim C10: during the initial-lean phase of a Fall event (progress < 0.1),
_update_fall writes only accel_x, accel_z and gyro_x; accel_y, gyro_y and
gyro_z keep the values stored by the previous read. -/
theorem C10_fall_initial_lean_frame (sinq cosq : ℚ → ℚ) (piq : ℚ)
    (s : MPUState) (progress : ℚ) (r : FallDraws) (h : progress < 0.1) :
    (updateFall sinq cosq piq s progress r).accel_y = s.accel_y
    ∧ (updateFall sinq cosq piq s progress r).gyro_y = s.gyro_y
    ∧ (updateFall sinq cosq piq s progress r).gyro_z = s.gyro_z
    ∧ (updateFall sinq cosq piq s progress r).accel_x
        = 9.8 * sinq (progress * 10 * piq / 180)
    ∧ (updateFall sinq cosq piq s progress r).accel_z
        = 9.8 * cosq (progress * 10 * piq / 180)
    ∧ (updateFall sinq cosq piq s progress r).gyro_x = uniformQ 0.5 1.0 r.rG1 := by
  simp [updateFall, h]

open MPU6050 in
/-- Witness for C10 at progress 1/20 on a concrete state: the untouched axes
keep their old values 2, 5 and 6. -/
theorem C10_fall_initial_lean_frame_witness :
    (updateFall (fun _ => 0) (fun _ => 0) 0
        ⟨1, 2, 3, 4, 5, 6, 25, 0, Scenario.fall, 0, 2, 0⟩ (1/20)
        ⟨1/2, 1/2, 1/2, 1/2, 1/2, 1/2, true, 1/2⟩).accel_y = 2
    ∧ (updateFall (fun _ => 0) (fun _ => 0) 0
        ⟨1, 2, 3, 4, 5, 6, 25, 0, Scenario.fall, 0, 2, 0⟩ (1/20)
        ⟨1/2, 1/2, 1/2, 1/2, 1/2, 1/2, true, 1/2⟩).gyro_y = 5
    ∧ (updateFall (fun _ => 0) (fun _ => 0) 0
        ⟨1, 2, 3, 4, 5, 6, 25, 0, Scenario.fall, 0, 2, 0⟩ (1/20)
        ⟨1/2, 1/2, 1/2, 1/2, 1/2, 1/2, true, 1/2⟩).gyro_z = 6 := by
  have h := C10_fall_initial_lean_frame (fun _ => 0) (fun _ => 0) 0
    ⟨1, 2, 3, 4, 5, 6, 25, 0, Scenario.fall, 0, 2, 0⟩ (1/20)
    ⟨1/2, 1/2, 1/2, 1/2, 1/2, 1/2, true, 1/2⟩ (by norm_num)
  exact ⟨h.1, h.2.1, h.2.2.1⟩

open BME680 MPU6050 Telemetry in
/-- Claim C8: with time and randomness treated as explicit inputs, each run
function is a pure function of the initial state and the input sequence, so
two runs given identical call timings and identical random draws produce
identical output sequences. -/
theorem C8_determinism (sinq cosq : ℚ → ℚ) (piq : ℚ)
    (e1 e2 : List (ℚ × BMEDraws)) (se : BMEState)
    (m1 m2 : List (ℚ × MPUDraws)) (sm : MPUState)
    (a1 a2 : List (ℚ × BatteryState × MotorState × TempState)) (sa : AggState)
    (he : e1 = e2) (hm : m1 = m2) (ha : a1 = a2) :
    envRun sinq piq se e1 = envRun sinq piq se e2
    ∧ mpuRun sinq cosq piq sm m1 = mpuRun sinq cosq piq sm m2
    ∧ aggRun sa a1 = aggRun sa a2 := by
  subst he; subst hm; subst ha
  exact ⟨rfl, rfl, rfl⟩

open BME680 MPU6050 Telemetry in
/-- Witness for C8 on concrete one-call runs. -/
theorem C8_determinism_witness :
    envRun (fun _ => 0) 0 ⟨false, 0, 0, 0, 0, 0, 0, 0, ⟨25, 1013.25, 50, 50000, false⟩⟩
        [(1, ⟨1/2, 1/2, 1/2, 1/2, 1/2, 1/2, 1/2⟩)]
      = envRun (fun _ => 0) 0 ⟨false, 0, 0, 0, 0, 0, 0, 0, ⟨25, 1013.25, 50, 50000, false⟩⟩
        [(1, ⟨1/2, 1/2, 1/2, 1/2, 1/2, 1/2, 1/2⟩)]
    ∧ mpuRun (fun _ => 0) (fun _ => 0) 0
        ⟨0, 0, 9.8, 0, 0, 0, 25, 0, Scenario.fall, 10, 2, 0⟩
        [(1, ⟨1/2, ⟨1/2, 1/2, 1/2, 1/2, 1/2, 1/2, 1/2, 1/2, 1/2⟩,
              ⟨1/2, 1/2, 1/2, 1/2, 1/2, 1/2, true, 1/2⟩,
              ⟨1/2, 1/2, 1/2, 1/2, 1/2, 1/2⟩, ⟨1/2, 1/2⟩⟩)]
      = mpuRun (fun _ => 0) (fun _ => 0) 0
        ⟨0, 0, 9.8, 0, 0, 0, 25, 0, Scenario.fall, 10, 2, 0⟩
        [(1, ⟨1/2, ⟨1/2, 1/2, 1/2, 1/2, 1/2, 1/2, 1/2, 1/2, 1/2⟩,
              ⟨1/2, 1/2, 1/2, 1/2, 1/2, 1/2, true, 1/2⟩,
              ⟨1/2, 1/2, 1/2, 1/2, 1/2, 1/2⟩, ⟨1/2, 1/2⟩⟩)]
    ∧ aggRun ⟨0, 0, 0, 0⟩
        [(3600, ⟨50, 36, 5, 25, false, 500⟩, ⟨100, 0, 0, 50, 0, 0, 0⟩, ⟨20, 30⟩)]
      = aggRun ⟨0, 0, 0, 0⟩
        [(3600, ⟨50, 36, 5, 25, false, 500⟩, ⟨100, 0, 0, 50, 0, 0, 0⟩, ⟨20, 30⟩)] :=
  C8_determinism (fun _ => 0) (fun _ => 0) 0 _ _
    ⟨false, 0, 0, 0, 0, 0, 0, 0, ⟨25, 1013.25, 50, 50000, false⟩⟩ _ _
    ⟨0, 0, 9.8, 0, 0, 0, 25, 0, Scenario.fall, 10, 2, 0⟩ _ _ ⟨0, 0, 0, 0⟩
    rfl rfl rfl

open BME680 in
/-- Claim C6: in the data returned by read_sensor, the gas_resistance key is
present only when gas measurement is enabled and the heater thresholds are
met, and is omitted when gas measurement is disabled; with gas measurement
enabled, heat_stable is true exactly when the heater temperature exceeds 200
and the heater duration exceeds 100, and with gas measurement disabled
heat_stable is false. -/
theorem C6_gas_resistance_heat_stable (sinq : ℚ → ℚ) (piq : ℚ) (s : BMEState)
    (now : ℚ) (r : BMEDraws) :
    ((readSensor sinq piq s now r).2.gas_resistance.isSome →
        s.gas_status = true ∧ s.gas_heater_temp > 200 ∧ s.gas_heater_duration > 100)
    ∧ (s.gas_status = false →
        (readSensor sinq piq s now r).2.gas_resistance = none
        ∧ (readSensor sinq piq s now r).1.data.heat_stable = false)
    ∧ (s.gas_status = true →
        ((readSensor sinq piq s now r).1.data.heat_stable = true
          ↔ s.gas_heater_temp > 200 ∧ s.gas_heater_duration > 100)) := by
  by_cases h1 : s.gas_heater_temp > 200 <;> by_cases h2 : s.gas_heater_duration > 100 <;>
    cases hg : s.gas_status <;>
      simp [readSensor, getSensorData, hg, h1, h2]

open BME680 in
/-- Witness for C6: with gas enabled and heater at 320 for 150 the sample has
heat_stable and carries a gas_resistance value; with gas disabled the key is
absent. -/
theorem C6_gas_resistance_heat_stable_witness :
    ((readSensor (fun _ => 0) 0
        ⟨true, 320, 150, 0, 0, 0, 0, 0, ⟨25, 1013.25, 50, 50000, false⟩⟩ 1
        ⟨1/2, 1/2, 1/2, 1/2, 1/2, 1/2, 1/2⟩).1.data.heat_stable = true
      ↔ (320:ℚ) > 200 ∧ (150:ℚ) > 100)
    ∧ (readSensor (fun _ => 0) 0
        ⟨false, 320, 150, 0, 0, 0, 0, 0, ⟨25, 1013.25, 50, 50000, false⟩⟩ 1
        ⟨1/2, 1/2, 1/2, 1/2, 1/2, 1/2, 1/2⟩).2.gas_resistance = none :=
  ⟨(C6_gas_resistance_heat_stable (fun _ => 0) 0
      ⟨true, 320, 150, 0, 0, 0, 0, 0, ⟨25, 1013.25, 50, 50000, false⟩⟩ 1
      ⟨1/2, 1/2, 1/2, 1/2, 1/2, 1/2, 1/2⟩).2.2 rfl,
   ((C6_gas_resistance_heat_stable (fun _ => 0) 0
      ⟨false, 320, 150, 0, 0, 0, 0, 0, ⟨25, 1013.25, 50, 50000, false⟩⟩ 1
      ⟨1/2, 1/2, 1/2, 1/2, 1/2, 1/2, 1/2⟩).2.1 rfl).1⟩

open BME680 in
/-- Counterexample to claim C7: the pressure trend update subtracts half of
the updated temperature trend value, not half of the change the temperature
trend underwent in the step. Concretely, with temperature trend 1, pressure
trend 0 and elapsed 0 (so the temperature trend's change is 0 and all
perturbations vanish), the code yields pressure trend -1/2 while the claimed
formula yields 0. -/
theorem C7_counterexample :
    ¬ ((getSensorData (fun _ => 0) 0
          ⟨false, 0, 0, 0, 1, 0, 0, 0, ⟨25, 1013.25, 50, 50000, false⟩⟩ 0
          ⟨1/2, 1/2, 1/2, 1/2, 1/2, 1/2, 1/2⟩).pressure_trend
        = max (-10) (min 10
            ((0:ℚ)
              - ((getSensorData (fun _ => 0) 0
                    ⟨false, 0, 0, 0, 1, 0, 0, 0, ⟨25, 1013.25, 50, 50000, false⟩⟩ 0
                    ⟨1/2, 1/2, 1/2, 1/2, 1/2, 1/2, 1/2⟩).temp_trend - 1) * 0.5
              + ((1:ℚ)/2 - 0.5) * 0.5 * 0))) := by
  norm_num [getSensorData, max_def, min_def]

open BME680 in
/-- Claim C7 as amended: on every sample with elapsed e, the pressure trend is
updated by subtracting half of the updated temperature trend value (not half
of its change), plus its own uniform random perturbation scaled by e, clamped
to the interval from -10 to 10; the returned pressure is 1013.25 plus the new
pressure trend plus uniform noise in the interval from -0.25 to 0.25, rounded
to two decimal places. -/
theorem C7_pressure_amended (sinq : ℚ → ℚ) (piq : ℚ) (s : BMEState) (now : ℚ)
    (r : BMEDraws) :
    ((getSensorData sinq piq s now r).pressure_trend
      = max (-10) (min 10
          (s.pressure_trend
            - (getSensorData sinq piq s now r).temp_trend * 0.5
            + (r.rPressTrend - 0.5) * 0.5 * (now - s.last_update))))
    ∧ ((getSensorData sinq piq s now r).data.pressure
      = round2 (1013.25 + (getSensorData sinq piq s now r).pressure_trend
          + (r.rPressNoise - 0.5) * 0.5))
    ∧ (0 ≤ r.rPressNoise → r.rPressNoise < 1 →
        -0.25 ≤ (r.rPressNoise - 0.5) * 0.5 ∧ (r.rPressNoise - 0.5) * 0.5 < 0.25) := by
  refine ⟨?_, ?_, ?_⟩
  · cases hg : s.gas_status <;> simp [getSensorData, hg]
  · cases hg : s.gas_status <;> simp [getSensorData, hg]
  · intro h0 h1
    constructor <;> [norm_num; skip] <;> nlinarith

open BME680 in
/-- Witness for the amended C7 at a concrete sample with all draws 1/2. -/
theorem C7_pressure_amended_witness :
    ((getSensorData (fun _ => 0) 0
        ⟨false, 0, 0, 0, 1, 0, 0, 0, ⟨25, 1013.25, 50, 50000, false⟩⟩ 0
        ⟨1/2, 1/2, 1/2, 1/2, 1/2, 1/2, 1/2⟩).data.pressure
      = round2 (1013.25
          + (getSensorData (fun _ => 0) 0
              ⟨false, 0, 0, 0, 1, 0, 0, 0, ⟨25, 1013.25, 50, 50000, false⟩⟩ 0
              ⟨1/2, 1/2, 1/2, 1/2, 1/2, 1/2, 1/2⟩).pressure_trend
          + ((1:ℚ)/2 - 0.5) * 0.5))
    ∧ (-0.25 ≤ ((1:ℚ)/2 - 0.5) * 0.5 ∧ ((1:ℚ)/2 - 0.5) * 0.5 < 0.25) :=
  ⟨(C7_pressure_amended (fun _ => 0) 0
      ⟨false, 0, 0, 0, 1, 0, 0, 0, ⟨25, 1013.25, 50, 50000, false⟩⟩ 0
      ⟨1/2, 1/2, 1/2, 1/2, 1/2, 1/2, 1/2⟩).2.1,
   (C7_pressure_amended (fun _ => 0) 0
      ⟨false, 0, 0, 0, 1, 0, 0, 0, ⟨25, 1013.25, 50, 50000, false⟩⟩ 0
      ⟨1/2, 1/2, 1/2, 1/2, 1/2, 1/2, 1/2⟩).2.2 (by norm_num) (by norm_num)⟩

end PVL
